import Mathlib

/-!
# Verification of the rosetree-portfolio-tracker session/authorization core

Shallow embedding of the session store (`src/lib/auth/hybrid-client.ts`,
second document: the Redis session module), the RLS access-context manager
(`src/lib/db/schema.ts`, second document: `withRLS` and friends), the RLS
policies and the `app.provision_user` function
(`migrations/001_enable_rls.sql`), the auth middleware token extraction
(unnamed middleware file), and the login route's provisioning step
(unnamed login route file).

Conventions of the embedding:
* machine timestamps are `Nat` seconds (the code uses Unix seconds);
* Redis is a record of total lookup functions (key-value store state);
* the `now()` clock, the random session id and the SHA-256 hash are passed
  in as explicit parameters (they are the only nondeterminism);
* a JavaScript `try`/`catch` around store calls is modelled by a
  `FailureSpec` record saying which store operations fail, with the
  `catch` branch translated literally;
* SQL three-valued logic: a `NULL` comparison in a policy `USING` clause
  is treated as not-true, which is how PostgreSQL filters rows.
-/

namespace Rosetree

/-! ## Roles (TS union type `'TRADER' | 'COACH' | 'ADMIN' | 'SYSTEM'`) -/

inductive DbRole where
  | TRADER
  | COACH
  | ADMIN
  | SYSTEM
deriving DecidableEq, Repr

/-- The SQL text of a role, as a character list (`array_to_string` /
`context.roles.join(',')` operate on these strings). -/
def roleStr : DbRole → List Char
  | .TRADER => ['T', 'R', 'A', 'D', 'E', 'R']
  | .COACH => ['C', 'O', 'A', 'C', 'H']
  | .ADMIN => ['A', 'D', 'M', 'I', 'N']
  | .SYSTEM => ['S', 'Y', 'S', 'T', 'E', 'M']

/-- Here `leadsWith n h` means: the character list `n` occurs at the start of `h`. -/
def leadsWith : List Char → List Char → Bool
  | [], _ => true
  | _ :: _, [] => false
  | a :: n, b :: h => a = b && leadsWith n h

/-- Here `occursIn n h` means: `n` occurs contiguously somewhere in `h`.  This is the
embedding of SQL `position(n IN h) > 0` used by `app.has_role`. -/
def occursIn : List Char → List Char → Bool
  | n, [] => n.isEmpty
  | n, c :: h => leadsWith n (c :: h) || occursIn n h

/-- Embedding of `context.roles.join(',')` in `withRLS` / `array_to_string(p_roles, ',')`
in `app.set_auth`: the comma-joined roles string stored in the
transaction-local setting `app.roles`. -/
def joinRoles : List DbRole → List Char
  | [] => []
  | [r] => roleStr r
  | r :: r' :: rs => roleStr r ++ ',' :: joinRoles (r' :: rs)

/-- Embedding of `app.current_user_id()`:
`CASE WHEN current_setting('app.user_id', true) = '' THEN NULL ELSE ...::uuid END`.
`none` models both a missing setting and the empty string (SQL `NULL`). -/
def appCurrentUserId : Option String → Option String
  | none => none
  | some s => if s = "" then none else some s

/-- Embedding of `app.has_role(role_name)`:
`position(role_name IN current_setting('app.roles', true)) > 0`. -/
def hasRole (rolesSetting : List Char) (roleName : List Char) : Bool :=
  occursIn roleName rolesSetting

def adminChars : List Char := ['A', 'D', 'M', 'I', 'N']

def systemChars : List Char := ['S', 'Y', 'S', 'T', 'E', 'M']

def coachChars : List Char := ['C', 'O', 'A', 'C', 'H']

/-! ## RLS policy on `portfolios` (migration `001_enable_rls.sql`) -/

/-- A row of the `portfolios` table (the columns the policy consults plus
the primary key). -/
structure PortfolioRow where
  id : String
  userId : String
  name : String
deriving DecidableEq, Repr

/-- The `RLSContext` record from `schema.ts`: user id plus role list bound to one
transaction. -/
structure RLSContext where
  userId : String
  roles : List DbRole
deriving DecidableEq, Repr

/-- The `USING` clause of policy `portfolios_owner_access`, evaluated under
the transaction-local settings `app.user_id = userIdSetting` and
`app.roles = rolesSetting`:

`user_id = app.current_user_id() OR app.has_role('ADMIN') OR
app.has_role('SYSTEM') OR (app.has_role('COACH') AND user_id IN
(SELECT app.current_user_id() WHERE FALSE))`.

The coach sub-select is `WHERE FALSE`, i.e. the empty set, so the `IN`
test is `false`.  A `NULL` `current_user_id` makes the equality not-true. -/
def portfoliosOwnerAccess (userIdSetting : String) (rolesSetting : List Char)
    (rowUserId : String) : Bool :=
  (match appCurrentUserId (some userIdSetting) with
   | some u => rowUserId == u
   | none => false)
  || hasRole rolesSetting adminChars
  || hasRole rolesSetting systemChars
  || (hasRole rolesSetting coachChars && false)

/-- A tenant-scoped `SELECT * FROM portfolios` executed inside
`withRLS(context, ...)`: `withRLS` runs `SET LOCAL app.user_id =
context.userId` and `SET LOCAL app.roles = context.roles.join(',')` on the
transaction's connection, and the row-security policy filters the table
with those transaction-local settings.  `SET LOCAL` is connection- and
transaction-local, so each concurrent read is evaluated purely under its
own context — which is what this function expresses. -/
def withRLSReadPortfolios (context : RLSContext) (table : List PortfolioRow) :
    List PortfolioRow :=
  table.filter fun row =>
    portfoliosOwnerAccess context.userId (joinRoles context.roles) row.userId

/-! ## Redis session store (`hybrid-client.ts`, session module) -/

/-- The session blob stored as JSON under `sess:<sessionId>` (interface
`Session`). -/
structure Session where
  v : Nat
  uid : String
  did : String
  iat : Nat
  exp : Nat
  idleExp : Nat
  rc : Nat
  mfa : Bool
  role : DbRole
  roleVersion : Nat
  ipH : Option String
  uaH : Option String
deriving DecidableEq, Repr

/-- The `CreateSessionParams` record.  Optional fields are `Option`; JavaScript
falsy-defaulting (`x || d`) is modelled by `jsOrDefault` below. -/
structure CreateSessionParams where
  userId : String
  deviceId : String
  role : DbRole
  absoluteTtlSec : Option Nat
  idleTtlSec : Option Nat
  ip : Option String
  userAgent : Option String
  mfa : Option Bool
deriving Repr

inductive InvalidReason where
  | not_found
  | expired
  | idle_expired
  | role_version_mismatch
deriving DecidableEq, Repr

/-- The `SessionValidationResult` record. -/
structure SessionValidationResult where
  valid : Bool
  session : Option Session
  reason : Option InvalidReason
deriving DecidableEq, Repr

/-- The Redis keyspace touched by the session module:
`sess:<id>` (session JSON plus its key TTL in seconds), `user:sess:<uid>`
(set of session ids), `dev:sess:<did>` (set of session ids),
`user:ver:<uid>` (role-version counter). -/
structure RedisState where
  sessions : String → Option (Session × Nat)
  userSessions : String → List String
  deviceSessions : String → List String
  roleVersions : String → Option Nat

def emptyRedis : RedisState :=
  { sessions := fun _ => none
    userSessions := fun _ => []
    deviceSessions := fun _ => []
    roleVersions := fun _ => none }

/-- Point update of a key-value map. -/
def upd {α : Type} (m : String → α) (k : String) (v : α) : String → α :=
  fun k' => if k' = k then v else m k'

/-- Redis `SADD`: add a member to a set (idempotent). -/
def sadd (x : String) (s : List String) : List String :=
  if x ∈ s then s else x :: s

/-- Redis `SREM`: remove a member from a set. -/
def srem (x : String) (s : List String) : List String :=
  s.filter fun y => y ≠ x

/-- Delete a list of session keys (the `for ... pipeline.del(...)` loop in
`revokeAllUserSessions`). -/
def delKeys : List String → (String → Option (Session × Nat)) →
    String → Option (Session × Nat)
  | [], m => m
  | k :: ks, m => delKeys ks (upd m k none)

/-- JavaScript `x || d` on an optional number: `undefined` and `0` are
falsy and give the default. -/
def jsOrDefault (x : Option Nat) (d : Nat) : Nat :=
  match x with
  | none => d
  | some n => if n = 0 then d else n

/-- JavaScript truthiness of an optional string: `undefined` and `''` are
falsy. -/
def jsTruthy (x : Option String) : Bool :=
  match x with
  | none => false
  | some s => s ≠ ""

/-- Embedding of `createSession(params)`.  The generated 256-bit random id `sid`, the
clock `t` (`now()`) and the SHA-256 truncation `hash` (used on
`params.ip` / `params.userAgent`) are explicit parameters.

Steps, in source order:
1. `roleVersion = await redis.incr(user:ver:<uid>) - 1` — `INCR` creates
   the counter at 1 if absent and returns the post-increment value;
2. build the session blob (`exp = now + absoluteTtl`,
   `idleExp = now + idleTtl`);
3. `redisTtl = min(idleTtl, absoluteTtl)`;
4. one pipeline: `SET sess:<sid> <json> EX redisTtl`,
   `SADD user:sess:<uid> sid`, and if `deviceId` is truthy
   `SADD dev:sess:<did> sid`. -/
def createSession (hash : String → String) (sid : String) (t : Nat)
    (params : CreateSessionParams) (st : RedisState) :
    (String × Session) × RedisState :=
  let absoluteTtl := jsOrDefault params.absoluteTtlSec (30 * 24 * 60 * 60)
  let idleTtl := jsOrDefault params.idleTtlSec (12 * 60 * 60)
  let counterAfterIncr := (st.roleVersions params.userId).getD 0 + 1
  let roleVersion := counterAfterIncr - 1
  let session : Session :=
    { v := 1
      uid := params.userId
      did := params.deviceId
      iat := t
      exp := t + absoluteTtl
      idleExp := t + idleTtl
      rc := 0
      mfa := params.mfa.getD false
      role := params.role
      roleVersion := roleVersion
      ipH := if jsTruthy params.ip then (params.ip.map hash) else none
      uaH := if jsTruthy params.userAgent then (params.userAgent.map hash) else none }
  let redisTtl := min idleTtl absoluteTtl
  let st1 : RedisState :=
    { st with roleVersions := upd st.roleVersions params.userId (some counterAfterIncr) }
  let st2 : RedisState :=
    { st1 with
        sessions := upd st1.sessions sid (some (session, redisTtl))
        userSessions :=
          upd st1.userSessions params.userId (sadd sid (st1.userSessions params.userId))
        deviceSessions :=
          if params.deviceId ≠ "" then
            upd st1.deviceSessions params.deviceId
              (sadd sid (st1.deviceSessions params.deviceId))
          else st1.deviceSessions }
  ((sid, session), st2)

/-- Embedding of `revokeSession(sessionId, userId?)`: look the user id up from the blob
when not supplied, then one pipeline: `DEL sess:<sid>` plus
`SREM user:sess:<uid> sid` when the user id is known.  Its `catch`
swallows all errors, so it never throws. -/
def revokeSession (sid : String) (userId : Option String) (st : RedisState) :
    RedisState :=
  let sessionUserId :=
    match userId with
    | some u => some u
    | none => (st.sessions sid).map fun p => p.1.uid
  let st1 : RedisState := { st with sessions := upd st.sessions sid none }
  match sessionUserId with
  | some u => { st1 with userSessions := upd st1.userSessions u (srem sid (st1.userSessions u)) }
  | none => st1

/-- Embedding of `revokeAllUserSessions(userId)`: `SMEMBERS user:sess:<uid>`; if the
set is empty, return immediately; otherwise one pipeline that `DEL`s every
listed session key, `DEL`s the index set, and `INCR`s
`user:ver:<uid>`. -/
def revokeAllUserSessions (userId : String) (st : RedisState) : RedisState :=
  let sessionIds := st.userSessions userId
  if sessionIds = [] then st
  else
    let st1 : RedisState := { st with sessions := delKeys sessionIds st.sessions }
    let st2 : RedisState := { st1 with userSessions := upd st1.userSessions userId [] }
    { st2 with
        roleVersions :=
          upd st2.roleVersions userId (some ((st2.roleVersions userId).getD 0 + 1)) }

/-- Which store operations inside `validateAndRefreshSession` fail.
`getThrows`: the initial `redis.get` rejects (store unreachable);
`execThrows`: `pipeline.exec()` rejects, or returns a malformed result
array (the `!results || results.length !== 2` guard);
`roleVerReadErr` / `refreshWriteErr`: per-command errors inside an
otherwise successful pipeline. -/
structure FailureSpec where
  getThrows : Bool
  execThrows : Bool
  roleVerReadErr : Bool
  refreshWriteErr : Bool
deriving DecidableEq, Repr

def noFail : FailureSpec :=
  { getThrows := false, execThrows := false
    roleVerReadErr := false, refreshWriteErr := false }

/-- Embedding of `validateAndRefreshSession(sessionId, idleTtlSec = 12*60*60)` at clock
`t`.  Source order:
1. `redis.get(sess:<sid>)`; absent → `not_found`;
2. `t >= exp` → revoke, `expired`;  `t >= idleExp` → revoke,
   `idle_expired`;
3. one pipeline: `GET user:ver:<uid>` and
   `SET sess:<sid> <refreshed> EX min(exp - t, idleTtlSec)` where the
   refreshed blob has `idleExp = t + idleTtlSec`;
4. if the role-version command had no error, returned a truthy value, and
   that value differs from `session.roleVersion` → revoke,
   `role_version_mismatch`;
5. otherwise `{valid: true, session}` (a failed refresh write is only
   logged).
Every raised error is caught and mapped to
`{valid: false, reason: 'not_found'}` (fail closed); the function never
throws. -/
def validateAndRefreshSession (fs : FailureSpec) (sid : String)
    (idleTtlSec : Nat) (t : Nat) (st : RedisState) :
    SessionValidationResult × RedisState :=
  if fs.getThrows then ({ valid := false, session := none, reason := some .not_found }, st)
  else
    match st.sessions sid with
    | none => ({ valid := false, session := none, reason := some .not_found }, st)
    | some (session, _) =>
      if session.exp ≤ t then
        ({ valid := false, session := none, reason := some .expired },
         revokeSession sid (some session.uid) st)
      else if session.idleExp ≤ t then
        ({ valid := false, session := none, reason := some .idle_expired },
         revokeSession sid (some session.uid) st)
      else
        let refreshed := { session with idleExp := t + idleTtlSec }
        let newTtl := min (session.exp - t) idleTtlSec
        if fs.execThrows then
          ({ valid := false, session := none, reason := some .not_found }, st)
        else
          let stW :=
            if fs.refreshWriteErr then st
            else { st with sessions := upd st.sessions sid (some (refreshed, newTtl)) }
          match fs.roleVerReadErr, st.roleVersions session.uid with
          | false, some v =>
            if v ≠ session.roleVersion then
              ({ valid := false, session := none, reason := some .role_version_mismatch },
               revokeSession sid (some session.uid) stW)
            else ({ valid := true, session := some refreshed, reason := none }, stW)
          | _, _ => ({ valid := true, session := some refreshed, reason := none }, stW)

/-! ## `withRLS` (schema.ts db module): transaction binding and read-back
guard -/

/-- The relational driver as seen by `withRLS`: `SET LOCAL key = value`
and reading a transaction-local setting back.  It is kept abstract so the
guard is verified against arbitrary (possibly misbehaving) pool/driver
behaviour. -/
structure DbDriver (σ : Type) where
  setLocal : σ → String → String → σ
  readSetting : σ → String → Option String

/-- The connection state after `withRLS` has run its two `SET LOCAL`
statements for `context`. -/
def rlsBoundState {σ : Type} (d : DbDriver σ) (context : RLSContext) (s : σ) : σ :=
  d.setLocal (d.setLocal s "app.user_id" context.userId)
    "app.roles" (String.mk (joinRoles context.roles))

/-- The value of `SELECT app.current_user_id()` re-read by `withRLS`
immediately after its `SET LOCAL`s. -/
def rlsReadBack {σ : Type} (d : DbDriver σ) (context : RLSContext) (s : σ) :
    Option String :=
  appCurrentUserId (d.readSetting (rlsBoundState d context s) "app.user_id")

/-- Embedding of `withRLS(context, operation)`:
1. open a transaction (the state `s`), `SET LOCAL app.user_id` and
   `SET LOCAL app.roles`;
2. re-read `app.current_user_id()` and throw
   `'RLS context setting failed'` if it differs from the requested user id
   — before `operation` runs;
3. run `operation` on the same transaction; an error from it is re-thrown
   with a contextual message (and the transaction rolls back). -/
def withRLS {σ α : Type} (d : DbDriver σ) (context : RLSContext)
    (operation : σ → Except String (α × σ)) (s : σ) : Except String (α × σ) :=
  let s2 := rlsBoundState d context s
  if rlsReadBack d context s = some context.userId then
    match operation s2 with
    | .ok r => .ok r
    | .error e =>
      .error ("RLS operation failed for user " ++ context.userId ++ ": " ++ e)
  else .error "RLS context setting failed"

/-! ## Auth middleware token extraction (unnamed middleware file) -/

/-- The two request carriers `extractSessionId` consults.
`appSessionCookie = some v` models a request carrying the `app_session`
cookie with value `v` (possibly empty); `authorizationHeader` models the
raw `Authorization` header. -/
structure GatewayRequest where
  appSessionCookie : Option String
  authorizationHeader : Option String
deriving DecidableEq, Repr

def bearerChars : List Char := ['B', 'e', 'a', 'r', 'e', 'r', ' ']

/-- The `Authorization: Bearer` fallback:
`authHeader?.startsWith('Bearer ')` then `authHeader.slice(7)`. -/
def bearerToken : Option String → Option String
  | none => none
  | some h =>
    if leadsWith bearerChars h.data then some (String.mk (h.data.drop 7))
    else none

/-- Embedding of `extractSessionId(request)`: read the `app_session` cookie value; if
it is truthy (JavaScript: non-empty) return it; otherwise fall back to the
`Authorization: Bearer` header; otherwise `null`. -/
def extractSessionId (request : GatewayRequest) : Option String :=
  match request.appSessionCookie with
  | some v => if v ≠ "" then some v else bearerToken request.authorizationHeader
  | none => bearerToken request.authorizationHeader

/-! ## Login route provisioning step (unnamed login route file) -/

/-- Result row of `provisionUser`. -/
structure ProvisionResult where
  userId : String
  portfolioId : String
  created : Bool
deriving DecidableEq, Repr

/-- Outcome of the login route's provisioning step: either a provisioned
user, or the fatal JSON 500 response
`{success: false, error: 'User provisioning failed'}`. -/
inductive LoginProvisionOutcome where
  | ok (r : ProvisionResult)
  | fatal (status : Nat) (msg : String)
deriving DecidableEq, Repr

/-- Step 2 of the login route `POST`: one `await provisionUser(...)`
inside `try`/`catch`; the `catch` returns the 500 response.  `oracle n` is
the outcome the provisioning backend would give to the `n`-th attempt
(counted from 0); the second component is how many attempts the code
makes. -/
def loginProvisionStep (oracle : Nat → Except String ProvisionResult) :
    LoginProvisionOutcome × Nat :=
  match oracle 0 with
  | .ok r => (.ok r, 1)
  | .error _ => (.fatal 500 "User provisioning failed", 1)

/-! ## `app.provision_user` (migration `001_enable_rls.sql`) with the real
table constraints -/

/-- A row of `users`: unique constraints are the primary key `id` and
`email UNIQUE`. -/
structure UserRow where
  id : String
  email : String
  role : DbRole
deriving DecidableEq, Repr

/-- A row of `portfolios`: the ONLY unique constraint is the primary key
`id` (a fresh random uuid); there is no unique constraint on `user_id` or
`(user_id, name)` — only plain indexes. -/
structure DbPortfolioRow where
  id : String
  userId : String
  name : String
  createdAt : Nat
deriving DecidableEq, Repr

structure PgState where
  users : List UserRow
  portfolios : List DbPortfolioRow
deriving DecidableEq, Repr

/-- Embedding of `app.provision_user(p_user_id, p_email, p_role)` with a fresh
`gen_random_uuid()` value `newPortfolioId` and insertion time `t`.

1. `INSERT INTO users ... ON CONFLICT (email) DO UPDATE SET role = ...,
   updated_at = NOW() RETURNING true INTO v_user_created` — the arbiter is
   the email unique index, so an email conflict takes the `UPDATE` path;
   an id (primary key) conflict with a different email is not covered by
   the arbiter and raises a duplicate-key error; in both non-error paths a
   row is returned, so `v_user_created` is `true` and the
   `IF NOT v_user_created` block never runs.
2. `INSERT INTO portfolios (user_id, name, total_value) VALUES
   (p_user_id, 'Main Portfolio', 0) ON CONFLICT DO NOTHING RETURNING id
   INTO v_portfolio_id` — `portfolios` has no unique constraint other
   than the fresh primary key, so the insert conflicts only if the fresh
   uuid collides; otherwise it always inserts a new row.
3. if `v_portfolio_id IS NULL`, select the oldest portfolio of the user.
4. return `(p_user_id, v_portfolio_id, v_user_created)`. -/
def provisionUserSql (newPortfolioId : String) (t : Nat)
    (pUserId pEmail : String) (pRole : DbRole) (st : PgState) :
    Except String ((String × Option String × Bool) × PgState) :=
  if (st.users.filter fun u => u.email = pEmail) ≠ [] then
    -- email conflict → DO UPDATE on the conflicting row
    let users' := st.users.map fun u => if u.email = pEmail then { u with role := pRole } else u
    provisionPortfolio newPortfolioId t pUserId { st with users := users' }
  else if (st.users.filter fun u => u.id = pUserId) ≠ [] then
    .error "duplicate key value violates unique constraint users_pkey"
  else
    provisionPortfolio newPortfolioId t pUserId
      { st with users := st.users ++ [{ id := pUserId, email := pEmail, role := pRole }] }
where
  provisionPortfolio (newId : String) (tIns : Nat) (uid : String) (st1 : PgState) :
      Except String ((String × Option String × Bool) × PgState) :=
    if (st1.portfolios.filter fun p => p.id = newId) ≠ [] then
      -- fresh-uuid collision: ON CONFLICT DO NOTHING, v_portfolio_id stays NULL
      let older := (st1.portfolios.filter fun p => p.userId = uid)
      let oldest := (older.map fun p => (p.createdAt, p.id)).min?
      .ok ((uid, oldest.map Prod.snd, true), st1)
    else
      let row : DbPortfolioRow :=
        { id := newId, userId := uid, name := "Main Portfolio", createdAt := tIns }
      .ok ((uid, some newId, true), { st1 with portfolios := st1.portfolios ++ [row] })

/-! ## Concrete scenario states used by counterexamples and witnesses -/

/-- A stored session nearing its absolute expiry (10 seconds left at
clock 1000) whose idle window is still open. -/
def c4Session : Session :=
  { v := 1, uid := "U1", did := "D1", iat := 0, exp := 1010, idleExp := 1005
    rc := 0, mfa := false, role := .TRADER, roleVersion := 0
    ipH := none, uaH := none }

/-- Store holding `c4Session` under `sess:S`, with no role-version counter
for `U1` (so validation's role check is skipped and the session is
accepted). -/
def c4State : RedisState :=
  { emptyRedis with
      sessions := upd emptyRedis.sessions "S" (some (c4Session, 1000))
      userSessions := upd emptyRedis.userSessions "U1" ["S"] }

/-- A healthy stored session (absolute expiry 100000, idle expiry 50000)
used to witness the role-check-skip behaviour at clock 1000. -/
def c10Session : Session :=
  { v := 1, uid := "U7", did := "D7", iat := 0, exp := 100000, idleExp := 50000
    rc := 0, mfa := false, role := .TRADER, roleVersion := 4
    ipH := none, uaH := none }

def c10State : RedisState :=
  { emptyRedis with
      sessions := upd emptyRedis.sessions "T" (some (c10Session, 43200))
      userSessions := upd emptyRedis.userSessions "U7" ["T"] }

/-- A live session of `U1` stamped with role version 2 while the stored
counter is 3. -/
def c5Session : Session :=
  { v := 1, uid := "U1", did := "D1", iat := 0, exp := 100000, idleExp := 50000
    rc := 0, mfa := false, role := .TRADER, roleVersion := 2
    ipH := none, uaH := none }

def c5State : RedisState :=
  { emptyRedis with
      sessions := upd emptyRedis.sessions "S" (some (c5Session, 43200))
      userSessions := upd emptyRedis.userSessions "U1" ["S"]
      roleVersions := upd emptyRedis.roleVersions "U1" (some 3) }

/-- Store unreachable: the initial `redis.get` rejects. -/
def c6Fail : FailureSpec :=
  { getThrows := true, execThrows := false
    roleVerReadErr := false, refreshWriteErr := false }

/-- A driver/pool that drops `SET LOCAL` (its read-back returns nothing):
the misbehaviour the `withRLS` guard defends against. -/
def c7Driver : DbDriver Unit :=
  { setLocal := fun s _ _ => s, readSetting := fun _ _ => none }

/-- Provisioning backend whose first attempt fails with a conflict and
whose second attempt would succeed. -/
def c8Oracle : Nat → Except String ProvisionResult :=
  fun n =>
    if n = 0 then .error "ProvisioningConflict"
    else .ok { userId := "U-new", portfolioId := "P-1", created := false }

def pgEmpty : PgState := { users := [], portfolios := [] }

/-- The database after one `app.provision_user('U', 'u@x.com')` call with
fresh portfolio id `P1`. -/
def pgSt1 : PgState :=
  { users := [{ id := "U", email := "u@x.com", role := .TRADER }]
    portfolios := [{ id := "P1", userId := "U", name := "Main Portfolio", createdAt := 1 }] }

def c1Table : List PortfolioRow :=
  [{ id := "p1", userId := "U1", name := "Main Portfolio" },
   { id := "p2", userId := "U2", name := "Main Portfolio" }]

/-! ## Helper lemmas -/

theorem upd_self {α : Type} (m : String → α) (k : String) (v : α) :
    upd m k v k = v := by
  simp [upd]

theorem upd_ne {α : Type} (m : String → α) (k : String) (v : α) (k' : String)
    (h : k' ≠ k) : upd m k v k' = m k' := by
  simp [upd, h]

theorem delKeys_eq_none (ks : List String) (m : String → Option (Session × Nat))
    (k : String) (h : m k = none ∨ k ∈ ks) : delKeys ks m k = none := by
  induction ks generalizing m with
  | nil =>
    simpa [delKeys] using h.resolve_right (by simp)
  | cons a ks ih =>
    rw [delKeys]
    apply ih
    rcases h with h | h
    · by_cases hk : k = a
      · left; simp [upd, hk]
      · left; simp [upd, hk, h]
    · rcases List.mem_cons.mp h with h | h
      · left; simp [upd, h]
      · right; exact h

theorem delKeys_not_mem (ks : List String) (m : String → Option (Session × Nat))
    (k : String) (h : k ∉ ks) : delKeys ks m k = m k := by
  induction ks generalizing m with
  | nil => rfl
  | cons a ks ih =>
    have hka : k ≠ a := fun e => h (by simp [e])
    have h' : k ∉ ks := fun hm => h (List.mem_cons_of_mem _ hm)
    rw [delKeys, ih _ h']
    simp [upd, hka]

theorem leadsWith_append_cons :
    ∀ (t l₁ l₂ : List Char) (a : Char), a ∉ t →
      leadsWith t (l₁ ++ a :: l₂) = true → leadsWith t l₁ = true := by
  intro t
  induction t with
  | nil => intro l₁ l₂ a _ _; rfl
  | cons c t ih =>
    intro l₁ l₂ a ha h
    cases l₁ with
    | nil =>
      exfalso
      simp [leadsWith] at h
      exact ha (List.mem_cons.mpr (Or.inl h.1.symm))
    | cons b l₁ =>
      simp [leadsWith] at h ⊢
      exact ⟨h.1, ih l₁ l₂ a (fun hm => ha (List.mem_cons_of_mem _ hm)) h.2⟩

theorem occursIn_append_cons :
    ∀ (l₁ t l₂ : List Char) (a : Char), a ∉ t →
      occursIn t (l₁ ++ a :: l₂) = true →
      occursIn t l₁ = true ∨ occursIn t l₂ = true := by
  intro l₁
  induction l₁ with
  | nil =>
    intro t l₂ a ha h
    simp [occursIn] at h
    rcases h with h | h
    · cases t with
      | nil => left; rfl
      | cons c t' =>
        exfalso
        simp [leadsWith] at h
        exact ha (List.mem_cons.mpr (Or.inl h.1.symm))
    · right; exact h
  | cons b l₁ ih =>
    intro t l₂ a ha h
    simp [occursIn] at h
    rcases h with h | h
    · left
      have hlw := leadsWith_append_cons t (b :: l₁) l₂ a ha (by simpa using h)
      simp [occursIn, hlw]
    · rcases ih t l₂ a ha h with h' | h'
      · left; simp [occursIn, h']
      · right; exact h'

theorem occursIn_joinRoles :
    ∀ (roles : List DbRole) (n : List Char), n ≠ [] → ',' ∉ n →
      occursIn n (joinRoles roles) = true →
      ∃ r, r ∈ roles ∧ occursIn n (roleStr r) = true := by
  intro roles
  induction roles with
  | nil =>
    intro n hne _ h
    exfalso
    cases n with
    | nil => exact hne rfl
    | cons c n' => simp [occursIn, joinRoles] at h
  | cons r rs ih =>
    intro n hne hc h
    cases rs with
    | nil => exact ⟨r, by simp, by simpa [joinRoles] using h⟩
    | cons r' rs' =>
      have h' : occursIn n (roleStr r ++ ',' :: joinRoles (r' :: rs')) = true := by
        simpa [joinRoles] using h
      rcases occursIn_append_cons (roleStr r) n (joinRoles (r' :: rs')) ',' hc h' with h1 | h1
      · exact ⟨r, by simp, h1⟩
      · obtain ⟨s, hs, hocc⟩ := ih n hne hc h1
        exact ⟨s, List.mem_cons_of_mem _ hs, hocc⟩

theorem occursIn_roleStr_admin :
    ∀ r, occursIn adminChars (roleStr r) = true → r = DbRole.ADMIN := by
  intro r
  cases r <;> decide

theorem occursIn_roleStr_system :
    ∀ r, occursIn systemChars (roleStr r) = true → r = DbRole.SYSTEM := by
  intro r
  cases r <;> decide

theorem hasRole_admin_mem (roles : List DbRole)
    (h : hasRole (joinRoles roles) adminChars = true) : DbRole.ADMIN ∈ roles := by
  obtain ⟨r, hmem, hocc⟩ :=
    occursIn_joinRoles roles adminChars (by decide) (by decide) h
  exact (occursIn_roleStr_admin r hocc) ▸ hmem

theorem hasRole_system_mem (roles : List DbRole)
    (h : hasRole (joinRoles roles) systemChars = true) : DbRole.SYSTEM ∈ roles := by
  obtain ⟨r, hmem, hocc⟩ :=
    occursIn_joinRoles roles systemChars (by decide) (by decide) h
  exact (occursIn_roleStr_system r hocc) ▸ hmem

/-! ## C1 -/

/-- C1: for two distinct identities A and B, neither holding the ADMIN or
SYSTEM role, a tenant-scoped read of `portfolios` executed via
`withRLS`/`withIdentity` under A never returns a row owned by B.  Each
concurrent read runs in its own transaction, whose `SET LOCAL` bindings
are connection- and transaction-local, so its result depends only on its
own context — the situation `withRLSReadPortfolios` expresses. -/
theorem withRLS_isolates_tenant_reads (A : RLSContext) (bId : String)
    (table : List PortfolioRow) (row : PortfolioRow)
    (hAdmin : DbRole.ADMIN ∉ A.roles) (hSystem : DbRole.SYSTEM ∉ A.roles)
    (hAB : A.userId ≠ bId) (hrow : row ∈ withRLSReadPortfolios A table) :
    row.userId ≠ bId := by
  have hpol : portfoliosOwnerAccess A.userId (joinRoles A.roles) row.userId = true :=
    (List.mem_filter.mp hrow).2
  unfold portfoliosOwnerAccess at hpol
  simp only [Bool.and_false, Bool.or_false, Bool.or_eq_true] at hpol
  rcases hpol with hpol | hsys
  rcases hpol with hown | hadm
  · by_cases hA0 : A.userId = ""
    · simp [appCurrentUserId, hA0] at hown
    · simp [appCurrentUserId, hA0] at hown
      rw [hown]; exact hAB
  · exact absurd (hasRole_admin_mem A.roles hadm) hAdmin
  · exact absurd (hasRole_system_mem A.roles hsys) hSystem

/-- Witness for C1 at a concrete two-tenant table. -/
theorem withRLS_isolates_tenant_reads_witness :
    (DbRole.ADMIN ∉ [DbRole.TRADER] ∧ DbRole.SYSTEM ∉ [DbRole.TRADER]
      ∧ "U1" ≠ "U2"
      ∧ ({ id := "p1", userId := "U1", name := "Main Portfolio"} : PortfolioRow)
          ∈ withRLSReadPortfolios { userId := "U1", roles := [.TRADER] } c1Table)
    ∧ ({ id := "p1", userId := "U1", name := "Main Portfolio"} : PortfolioRow).userId ≠ "U2" :=
  ⟨by decide,
   withRLS_isolates_tenant_reads { userId := "U1", roles := [.TRADER] } "U2" c1Table
     { id := "p1", userId := "U1", name := "Main Portfolio" }
     (by decide) (by decide) (by decide) (by decide)⟩

theorem jsOrDefault_pos (x : Option Nat) (d : Nat) (hd : 0 < d) :
    0 < jsOrDefault x d := by
  cases x with
  | none => simpa [jsOrDefault] using hd
  | some n =>
    by_cases h : n = 0
    · simpa [jsOrDefault, h] using hd
    · simp [jsOrDefault, h]
      omega

/-! ## C2 -/

/-- C2 (code bug): `createSession` stamps
`roleVersion = INCR(user:ver:<uid>) - 1`, so right after creation the
stored counter is one ahead of the stamped value, and an immediate
`validateAndRefreshSession` (same clock, no failures) always rejects the
fresh session with `role_version_mismatch` — for every parameter choice
and every prior store state, not just the spec's Scenario 1. -/
theorem createSession_immediate_validation_rejected
    (hash : String → String) (sid : String) (t : Nat) (idleTtlSec : Nat)
    (params : CreateSessionParams) (st : RedisState) :
    (validateAndRefreshSession noFail sid idleTtlSec t
        (createSession hash sid t params st).2).1
      = { valid := false, session := none, reason := some .role_version_mismatch } := by
  have h1 : ¬ (t + jsOrDefault params.absoluteTtlSec (30 * 24 * 60 * 60) ≤ t) := by
    have := jsOrDefault_pos params.absoluteTtlSec (30 * 24 * 60 * 60) (by norm_num)
    omega
  have h2 : ¬ (t + jsOrDefault params.idleTtlSec (12 * 60 * 60) ≤ t) := by
    have := jsOrDefault_pos params.idleTtlSec (12 * 60 * 60) (by norm_num)
    omega
  simp [createSession, validateAndRefreshSession, noFail, upd_self, h1, h2]

/-! ## C4 -/

/-- C4 counterexample: a successful refresh of a session 10 seconds away
from its absolute expiry stores a blob whose `idleExp` (44200) exceeds its
`exp` (1010): the refreshed record violates
`idleExpiry <= absoluteExpiry`.  Only the Redis key TTL (10) is
clamped. -/
theorem validate_refresh_idleExp_exceeds_absolute :
    ((validateAndRefreshSession noFail "S" 43200 1000 c4State).1).valid = true
    ∧ (validateAndRefreshSession noFail "S" 43200 1000 c4State).2.sessions "S"
        = some ({ c4Session with idleExp := 44200 }, 10)
    ∧ ({ c4Session with idleExp := 44200 } : Session).exp
        < ({ c4Session with idleExp := 44200 } : Session).idleExp := by
  decide

/-- C4 amended: after every successful refresh whose pipeline write
succeeded, the stored entry's key TTL is clamped to
`min(absoluteExpiry - now, idleTtl)` — so the entry cannot outlive the
absolute expiry — while the blob's `idleExp` field is written as
`now + idleTtl` without clamping. -/
theorem validate_refresh_store_ttl_clamped (fs : FailureSpec) (sid : String)
    (idleTtlSec t : Nat) (st : RedisState)
    (hw : fs.refreshWriteErr = false)
    (hv : ((validateAndRefreshSession fs sid idleTtlSec t st).1).valid = true) :
    ∃ s' ttl',
      (validateAndRefreshSession fs sid idleTtlSec t st).2.sessions sid
          = some (s', ttl')
      ∧ s'.idleExp = t + idleTtlSec
      ∧ ttl' = min (s'.exp - t) idleTtlSec
      ∧ t + ttl' ≤ s'.exp := by
  by_cases hg : fs.getThrows
  · simp [validateAndRefreshSession, hg] at hv
  cases hs : st.sessions sid with
  | none => simp [validateAndRefreshSession, hg, hs] at hv
  | some p =>
    rcases p with ⟨s, ttl⟩
    by_cases h1 : s.exp ≤ t
    · simp [validateAndRefreshSession, hg, hs, h1] at hv
    by_cases h2 : s.idleExp ≤ t
    · simp [validateAndRefreshSession, hg, hs, h1, h2] at hv
    by_cases hex : fs.execThrows
    · simp [validateAndRefreshSession, hg, hs, h1, h2, hex] at hv
    refine ⟨{ s with idleExp := t + idleTtlSec }, min (s.exp - t) idleTtlSec, ?_, rfl, rfl, ?_⟩
    · cases hrv : fs.roleVerReadErr with
      | true => simp [validateAndRefreshSession, hg, hs, h1, h2, hex, hrv, hw, upd_self]
      | false =>
        cases hcv : st.roleVersions s.uid with
        | none => simp [validateAndRefreshSession, hg, hs, h1, h2, hex, hrv, hcv, hw, upd_self]
        | some v =>
          by_cases hne : v ≠ s.roleVersion
          · exfalso
            simp [validateAndRefreshSession, hg, hs, h1, h2, hex, hrv, hcv, hne] at hv
          · simp [validateAndRefreshSession, hg, hs, h1, h2, hex, hrv, hcv, hne, hw, upd_self]
    · show t + min (s.exp - t) idleTtlSec ≤ s.exp
      omega

/-- C4 witness: the clamping statement instantiated at the near-expiry
store. -/
theorem validate_refresh_store_ttl_clamped_witness :
    ∃ s' ttl',
      (validateAndRefreshSession noFail "S" 43200 1000 c4State).2.sessions "S"
          = some (s', ttl')
      ∧ s'.idleExp = 1000 + 43200
      ∧ ttl' = min (s'.exp - 1000) 43200
      ∧ 1000 + ttl' ≤ s'.exp :=
  validate_refresh_store_ttl_clamped noFail "S" 43200 1000 c4State rfl (by decide)

/-! ## C5 -/

/-- When the subject's session index is non-empty, `revokeAllUserSessions`
is the pipeline: delete every listed key, delete the index, bump the
counter. -/
theorem revokeAll_eq (userId : String) (st : RedisState)
    (hne : st.userSessions userId ≠ []) :
    revokeAllUserSessions userId st =
      { sessions := delKeys (st.userSessions userId) st.sessions
        userSessions := upd st.userSessions userId []
        deviceSessions := st.deviceSessions
        roleVersions :=
          upd st.roleVersions userId (some ((st.roleVersions userId).getD 0 + 1)) } := by
  simp [revokeAllUserSessions, hne]

/-- C5 counterexample: for a subject with an empty session index the
function returns before the pipeline, so the role-version counter is NOT
incremented — the claim's unconditional "increments the subject's
role-version counter" fails at subject `U2` on the empty store. -/
theorem revokeAll_empty_index_skips_bump :
    (revokeAllUserSessions "U2" emptyRedis).roleVersions "U2" ≠
      some ((emptyRedis.roleVersions "U2").getD 0 + 1) := by
  decide

/-- C5 amended: whenever the subject's session index is non-empty,
`revokeAll` deletes every listed session key and the index itself and
increments the role-version counter; consequently every stored session of
the subject whose stamped role version does not exceed the pre-call
counter — which covers both the enumerated sessions and one created in a
race just before enumeration — is invalid on its next validation. -/
theorem revokeAll_nonempty_revokes_and_bumps (userId : String) (st : RedisState)
    (hne : st.userSessions userId ≠ []) :
    (∀ sid ∈ st.userSessions userId,
        (revokeAllUserSessions userId st).sessions sid = none)
    ∧ (revokeAllUserSessions userId st).userSessions userId = []
    ∧ (revokeAllUserSessions userId st).roleVersions userId
        = some ((st.roleVersions userId).getD 0 + 1)
    ∧ ∀ (idleTtlSec t : Nat) (sid : String) (s : Session) (ttl : Nat),
        st.sessions sid = some (s, ttl) → s.uid = userId →
        s.roleVersion ≤ (st.roleVersions userId).getD 0 →
        ((validateAndRefreshSession noFail sid idleTtlSec t
            (revokeAllUserSessions userId st)).1).valid = false := by
  rw [revokeAll_eq userId st hne]
  refine ⟨?_, ?_, ?_, ?_⟩
  · intro sid hmem
    exact delKeys_eq_none _ _ _ (Or.inr hmem)
  · exact upd_self _ _ _
  · exact upd_self _ _ _
  · intro idleTtlSec t sid s ttl hs huid hrv
    by_cases hmem : sid ∈ st.userSessions userId
    · have hnone : delKeys (st.userSessions userId) st.sessions sid = none :=
        delKeys_eq_none _ _ _ (Or.inr hmem)
      simp [validateAndRefreshSession, noFail, hnone]
    · have hsame : delKeys (st.userSessions userId) st.sessions sid = some (s, ttl) := by
        rw [delKeys_not_mem _ _ _ hmem, hs]
      by_cases h1 : s.exp ≤ t
      · simp [validateAndRefreshSession, noFail, hsame, h1]
      by_cases h2 : s.idleExp ≤ t
      · simp [validateAndRefreshSession, noFail, hsame, h1, h2]
      have hcv : upd st.roleVersions userId
          (some ((st.roleVersions userId).getD 0 + 1)) s.uid
            = some ((st.roleVersions userId).getD 0 + 1) := by
        rw [huid]; exact upd_self _ _ _
      have hne' : (st.roleVersions userId).getD 0 + 1 ≠ s.roleVersion := by omega
      simp [validateAndRefreshSession, noFail, hsame, h1, h2, hcv, hne']

/-- C5 witness: one live session of `U1` with stamped version 2 and
counter 3. -/
theorem revokeAll_nonempty_revokes_and_bumps_witness :
    (revokeAllUserSessions "U1" c5State).sessions "S" = none
    ∧ (revokeAllUserSessions "U1" c5State).roleVersions "U1" = some 4
    ∧ ((validateAndRefreshSession noFail "S" 43200 1000
        (revokeAllUserSessions "U1" c5State)).1).valid = false :=
  ⟨(revokeAll_nonempty_revokes_and_bumps "U1" c5State (by decide)).1 "S" (by decide),
   (revokeAll_nonempty_revokes_and_bumps "U1" c5State (by decide)).2.2.1,
   (revokeAll_nonempty_revokes_and_bumps "U1" c5State (by decide)).2.2.2
     43200 1000 "S" c5Session 43200 (by decide) rfl (by decide)⟩

/-! ## C6 -/

/-- C6: `validateAndRefreshSession` is a total function (never throws);
an unknown id yields `{valid: false, reason: 'not_found'}`; an unreachable
store (the initial `get` rejects) yields exactly the same result; and any
store failure (`get` or `pipeline.exec`) can never produce a valid
result. -/
theorem validateAndRefresh_fails_closed (fs : FailureSpec) (sid : String)
    (idleTtlSec t : Nat) (st : RedisState) :
    (st.sessions sid = none →
      (validateAndRefreshSession fs sid idleTtlSec t st).1
        = { valid := false, session := none, reason := some .not_found })
    ∧ (fs.getThrows = true →
      (validateAndRefreshSession fs sid idleTtlSec t st).1
        = { valid := false, session := none, reason := some .not_found })
    ∧ ((fs.getThrows = true ∨ fs.execThrows = true) →
      ((validateAndRefreshSession fs sid idleTtlSec t st).1).valid = false) := by
  refine ⟨?_, ?_, ?_⟩
  · intro hnone
    by_cases hg : fs.getThrows <;> simp [validateAndRefreshSession, hg, hnone]
  · intro hg
    simp [validateAndRefreshSession, hg]
  · intro he
    by_cases hg : fs.getThrows
    · simp [validateAndRefreshSession, hg]
    · have hex : fs.execThrows = true := by tauto
      cases hs : st.sessions sid with
      | none => simp [validateAndRefreshSession, hg, hs]
      | some p =>
        rcases p with ⟨s, ttl⟩
        by_cases h1 : s.exp ≤ t
        · simp [validateAndRefreshSession, hg, hs, h1]
        · by_cases h2 : s.idleExp ≤ t
          · simp [validateAndRefreshSession, hg, hs, h1, h2]
          · simp [validateAndRefreshSession, hg, hs, h1, h2, hex]

/-- C6 witness: unreachable store at a concrete id. -/
theorem validateAndRefresh_fails_closed_witness :
    (validateAndRefreshSession c6Fail "S" 43200 0 emptyRedis).1
      = { valid := false, session := none, reason := some .not_found } :=
  (validateAndRefresh_fails_closed c6Fail "S" 43200 0 emptyRedis).2.1 rfl

/-! ## C7 -/

/-- C7: `withRLS` re-reads `app.current_user_id()` immediately after its
`SET LOCAL`s; if the read-back differs from the requested subject id it
throws `'RLS context setting failed'` without running the caller's
operation (the outcome does not depend on the operation at all). -/
theorem withRLS_guard_blocks_on_readback_mismatch {σ α : Type}
    (d : DbDriver σ) (context : RLSContext)
    (operation operation' : σ → Except String (α × σ)) (s : σ)
    (h : rlsReadBack d context s ≠ some context.userId) :
    withRLS d context operation s = .error "RLS context setting failed"
    ∧ withRLS d context operation s = withRLS d context operation' s := by
  constructor <;> simp [withRLS, h]

/-- C7 witness: a driver that drops `SET LOCAL` trips the guard no matter
which operation was requested. -/
theorem withRLS_guard_blocks_on_readback_mismatch_witness :
    withRLS c7Driver { userId := "U1", roles := [.TRADER] }
        (fun s => .ok ((0 : Nat), s)) ()
      = .error "RLS context setting failed" :=
  (withRLS_guard_blocks_on_readback_mismatch c7Driver
    { userId := "U1", roles := [.TRADER] }
    (fun s => .ok ((0 : Nat), s)) (fun s => .ok ((1 : Nat), s)) ()
    (by decide)).1

/-! ## C8 -/

/-- C8 counterexample: the login route's provisioning step makes exactly
one attempt; on a conflict failure it surfaces the fatal 500 immediately
even though a single retry (attempt 1 of `c8Oracle`) would have
succeeded — so "retried exactly once before a fatal error" is false. -/
theorem login_provision_conflict_not_retried :
    loginProvisionStep c8Oracle = (.fatal 500 "User provisioning failed", 1)
    ∧ (loginProvisionStep c8Oracle).2 ≠ 2 := by
  decide

/-- C8 amended: the login flow calls `provisionUser` exactly once — any
failure (conflicts included) surfaces immediately as the fatal 500
response, and a success is passed through; there is no retry.  (Conflicts
are instead absorbed inside `app.provision_user`'s `ON CONFLICT`
clauses.) -/
theorem login_provision_single_attempt
    (oracle : Nat → Except String ProvisionResult) :
    (loginProvisionStep oracle).2 = 1
    ∧ (∀ e, oracle 0 = .error e →
        (loginProvisionStep oracle).1 = .fatal 500 "User provisioning failed")
    ∧ (∀ r, oracle 0 = .ok r → (loginProvisionStep oracle).1 = .ok r) := by
  unfold loginProvisionStep
  cases h0 : oracle 0 with
  | ok r => simp [h0]
  | error e => simp [h0]

/-- C8 witness: the single-attempt statement at the conflicting oracle. -/
theorem login_provision_single_attempt_witness :
    (loginProvisionStep c8Oracle).2 = 1
    ∧ (loginProvisionStep c8Oracle).1 = .fatal 500 "User provisioning failed" :=
  ⟨(login_provision_single_attempt c8Oracle).1,
   (login_provision_single_attempt c8Oracle).2.1 "ProvisioningConflict" rfl⟩

/-! ## C9 -/

/-- C9 counterexample: a request carrying the `app_session` cookie with
the empty value and a Bearer header — the empty cookie value is falsy in
JavaScript, so extraction returns the header token, not the cookie value;
and with the same cookie and no header it returns null although a cookie
is present. -/
theorem extractSessionId_empty_cookie_counterexample :
    extractSessionId { appSessionCookie := some "", authorizationHeader := some "Bearer X" }
        = some "X"
    ∧ (some "X" : Option String) ≠ some ""
    ∧ extractSessionId { appSessionCookie := some "", authorizationHeader := none } = none := by
  decide

/-- C9 amended: a NON-EMPTY `app_session` cookie value always wins; a
missing or empty-valued cookie falls back to the
`Authorization: Bearer` header; extraction returns null exactly when
there is no non-empty cookie value and no Bearer-prefixed header. -/
theorem extractSessionId_precedence (request : GatewayRequest) :
    (∀ v, request.appSessionCookie = some v → v ≠ "" →
        extractSessionId request = some v)
    ∧ ((request.appSessionCookie = none ∨ request.appSessionCookie = some "") →
        extractSessionId request = bearerToken request.authorizationHeader)
    ∧ (extractSessionId request = none ↔
        ((request.appSessionCookie = none ∨ request.appSessionCookie = some "")
          ∧ bearerToken request.authorizationHeader = none)) := by
  refine ⟨?_, ?_, ?_⟩
  · intro v hv hne
    simp [extractSessionId, hv, hne]
  · intro h
    rcases h with h | h <;> simp [extractSessionId, h]
  · cases hc : request.appSessionCookie with
    | none => simp [extractSessionId, hc]
    | some v =>
      by_cases hv : v = ""
      · subst hv
        simp [extractSessionId, hc]
      · simp [extractSessionId, hc, hv]

/-- C9 witness: the amended precedence at a request carrying both a
non-empty cookie and a Bearer header. -/
theorem extractSessionId_precedence_witness :
    extractSessionId { appSessionCookie := some "C", authorizationHeader := some "Bearer X" }
      = some "C" :=
  (extractSessionId_precedence
    { appSessionCookie := some "C", authorizationHeader := some "Bearer X" }).1
    "C" rfl (by decide)

/-! ## C10 -/

/-- C10: when the counter key is absent (`GET` returned null) or the
pipelined counter read errored, the role-version comparison is skipped
and the (unexpired) session is accepted as valid; and conversely a
`role_version_mismatch` rejection can only happen when a counter value
was actually read (no command error, value present and different). -/
theorem validate_role_check_skipped_without_read (fs : FailureSpec) (sid : String)
    (idleTtlSec t : Nat) (st : RedisState) (s : Session) (ttl : Nat)
    (hs : st.sessions sid = some (s, ttl)) (hexp : t < s.exp) (hidle : t < s.idleExp)
    (hg : fs.getThrows = false) (he : fs.execThrows = false)
    (hskip : fs.roleVerReadErr = true ∨ st.roleVersions s.uid = none) :
    ((validateAndRefreshSession fs sid idleTtlSec t st).1
        = { valid := true, session := some { s with idleExp := t + idleTtlSec },
            reason := none })
    ∧ ∀ (fs' : FailureSpec) (sid' : String) (idle' t' : Nat) (st' : RedisState),
        ((validateAndRefreshSession fs' sid' idle' t' st').1).reason
            = some InvalidReason.role_version_mismatch →
        fs'.roleVerReadErr = false
        ∧ ∃ s' ttl' v, st'.sessions sid' = some (s', ttl')
            ∧ st'.roleVersions s'.uid = some v ∧ v ≠ s'.roleVersion := by
  constructor
  · have h1 : ¬ (s.exp ≤ t) := by omega
    have h2 : ¬ (s.idleExp ≤ t) := by omega
    rcases hskip with hr | hr
    · simp [validateAndRefreshSession, hg, hs, h1, h2, he, hr]
    · cases hrv : fs.roleVerReadErr with
      | true => simp [validateAndRefreshSession, hg, hs, h1, h2, he, hrv]
      | false => simp [validateAndRefreshSession, hg, hs, h1, h2, he, hrv, hr]
  · intro fs' sid' idle' t' st' h
    by_cases hg' : fs'.getThrows
    · simp [validateAndRefreshSession, hg'] at h
    cases hs' : st'.sessions sid' with
    | none => simp [validateAndRefreshSession, hg', hs'] at h
    | some p =>
      rcases p with ⟨s', ttl'⟩
      by_cases h1 : s'.exp ≤ t'
      · simp [validateAndRefreshSession, hg', hs', h1] at h
      by_cases h2 : s'.idleExp ≤ t'
      · simp [validateAndRefreshSession, hg', hs', h1, h2] at h
      by_cases hex : fs'.execThrows
      · simp [validateAndRefreshSession, hg', hs', h1, h2, hex] at h
      cases hrv : fs'.roleVerReadErr with
      | true => simp [validateAndRefreshSession, hg', hs', h1, h2, hex, hrv] at h
      | false =>
        cases hcv : st'.roleVersions s'.uid with
        | none => simp [validateAndRefreshSession, hg', hs', h1, h2, hex, hrv, hcv] at h
        | some v =>
          by_cases hne : v ≠ s'.roleVersion
          · exact ⟨rfl, s', ttl', v, rfl, hcv, hne⟩
          · simp [validateAndRefreshSession, hg', hs', h1, h2, hex, hrv, hcv, hne] at h

/-- C10 witness: a healthy session whose subject has no counter key is
accepted. -/
theorem validate_role_check_skipped_without_read_witness :
    (validateAndRefreshSession noFail "T" 43200 1000 c10State).1
      = { valid := true, session := some { c10Session with idleExp := 44200 },
          reason := none } :=
  (validate_role_check_skipped_without_read noFail "T" 43200 1000 c10State
    c10Session 43200 (by decide) (by decide) (by decide) rfl rfl
    (Or.inr (by decide))).1

/-! ## C3 -/

/-- C3 (code bug): `app.provision_user` is not idempotent for the default
portfolio.  `portfolios` has no unique constraint on `user_id` (only the
random primary key), so the `ON CONFLICT DO NOTHING` insert never
conflicts: a second call for the same subject and contact inserts a
second 'Main Portfolio' row and returns a different `portfolio_id`. -/
theorem provision_user_duplicates_portfolio :
    provisionUserSql "P1" 1 "U" "u@x.com" .TRADER pgEmpty
        = .ok (("U", some "P1", true), pgSt1)
    ∧ provisionUserSql "P2" 2 "U" "u@x.com" .TRADER pgSt1
        = .ok (("U", some "P2", true),
            { users := [{ id := "U", email := "u@x.com", role := .TRADER }]
              portfolios :=
                [{ id := "P1", userId := "U", name := "Main Portfolio", createdAt := 1 },
                 { id := "P2", userId := "U", name := "Main Portfolio", createdAt := 2 }] })
    ∧ (some "P1" : Option String) ≠ some "P2" :=
  ⟨rfl, rfl, by decide⟩

end Rosetree
